import Mathlib

/-!
Shallow embedding of the Autonomic-AI self-healing agent pipeline
(gateway / auditor / refiner / evaluator workers over a document store).

Python dictionaries stored in the document store are modelled as Lean
structures; keys that may be absent in a stored/published dict are
`Option` fields.  The document store (three collections keyed by string
document ids) is modelled as association lists with last-write-wins
`set`.  External LLM calls return free-form text; the downstream
`json.loads` of that text is modelled by passing the parse result
(`Option` of the parsed shape, `none` = `JSONDecodeError`) as an explicit
parameter, since the text itself is unconstrained external input.
-/

/-- Dict `prompt.persona` of an agent document. -/
structure Persona where
  role : String
  tone : String
deriving DecidableEq, Repr

/-- Dict `prompt` of an agent document: the mutable surface. -/
structure PromptSpec where
  persona : Persona
  style_guide : List String
  objectives : List String
  operational_guidelines : List String
deriving DecidableEq, Repr

/-- Dict `resources` of an agent document. -/
structure Resources where
  knowledge_base_text : String
  policy_text : String
deriving DecidableEq, Repr

/-- Dict `upgrade_config`: the two rule sets. -/
structure UpgradeConfig where
  auditor_rules : List String
  evaluator_rubric : List String
deriving DecidableEq, Repr

/-- Dict `config`: model settings. -/
structure ModelConfig where
  model_id : String
  temperature : ℚ
  max_tokens : Nat
deriving DecidableEq, Repr

/-- Dict `economics` (seeded, untouched by the workers). -/
structure Economics where
  likes : Nat
  dislikes : Nat
  input_token_count_prompt : Nat
  budget_per_message : String
deriving DecidableEq, Repr

/-- Dict `metadata` of an agent document. -/
structure AgentMetadata where
  name : String
  description : String
  creator : String
  agentid : String
  version : Nat
  deployment_state : String
  upgrade_reason : String
deriving DecidableEq, Repr

/-- An `agents` collection document (shape from `perform_seed`). -/
structure AgentDoc where
  agent_id : String
  version : Nat
  created_at : Nat
  metadata : AgentMetadata
  config : ModelConfig
  economics : Economics
  prompt : PromptSpec
  resources : Resources
  upgrade_config : UpgradeConfig
deriving DecidableEq, Repr

/-- A `pointers` collection document. -/
structure PointerDoc where
  agentid : String
  current_version : Nat
  reason : String
  active_agent_doc_ref : String
  last_updated : Nat
deriving DecidableEq, Repr

/-- Per-model-turn metrics attached by `generate_response`. -/
structure Metrics where
  latency_ms : ℚ
  input_tokens : Nat
  output_tokens : Nat
  total_tokens : Nat
  estimated_cost : ℚ
  model_used : String
deriving DecidableEq, Repr

/-- One history entry of a chat document. -/
structure Turn where
  role : String
  content : String
  metrics : Option Metrics
  timestamp : Nat
deriving DecidableEq, Repr

/-- Dict `audit_result` of a chat document; each key may be absent. -/
structure AuditResult where
  verdict : Option String
  reason : Option String
  priority : Option String
  timestamp : Option Nat
deriving DecidableEq, Repr

/-- Dict `metadata` of a chat document (written by `save_chat_log`). -/
structure ChatMetadata where
  agent_id : String
  version : String
  last_active : Nat
deriving DecidableEq, Repr

/-- A `chats` collection document. -/
structure ChatDoc where
  metadata : ChatMetadata
  history : List Turn
  audit_result : Option AuditResult
deriving DecidableEq, Repr

/-- A collection: association list from document id to document. -/
def Coll (α : Type) : Type := List (String × α)

instance (α : Type) [DecidableEq α] : DecidableEq (Coll α) :=
  inferInstanceAs (DecidableEq (List (String × α)))

/-- Firestore `get` of document `k` (None when absent). -/
def collFind {α : Type} (c : Coll α) (k : String) : Option α :=
  match c with
  | [] => none
  | (k', v) :: t => if k' = k then some v else collFind t k

/-- Firestore `set` of document `k` (create or replace). -/
def collSet {α : Type} (c : Coll α) (k : String) (v : α) : Coll α :=
  match c with
  | [] => [(k, v)]
  | (k', v') :: t => if k' = k then (k, v) :: t else (k', v') :: collSet t k v

/-- The whole Firestore state: the three collections used by the core. -/
structure Store where
  agents : Coll AgentDoc
  pointers : Coll PointerDoc
  chats : Coll ChatDoc
deriving DecidableEq

/-! ## `src/core/db.py` -/

/-- Function `get_current_agent_config`: two-hop read pointer to agent doc.
`none` models the raised `ValueError` (missing pointer or dangling ref). -/
def get_current_agent_config (s : Store) (agent_id : String) : Option AgentDoc :=
  match collFind s.pointers agent_id with
  | none => none
  | some ptr => collFind s.agents ptr.active_agent_doc_ref

/-- Function `save_chat_log`: merge-set of the chat doc, appending the
(user, model) turn pair to `history` and refreshing `metadata`. -/
def save_chat_log (s : Store) (chat_id agent_id version user_msg bot_msg : String)
    (metrics : Metrics) (now : Nat) : Store :=
  let newTurns : List Turn :=
    [⟨"user", user_msg, none, now⟩, ⟨"model", bot_msg, some metrics, now⟩]
  let meta : ChatMetadata := ⟨agent_id, version, now⟩
  match collFind s.chats chat_id with
  | none =>
      { s with chats := collSet s.chats chat_id (⟨meta, newTurns, none⟩ : ChatDoc) }
  | some c =>
      let doc : ChatDoc := ⟨meta, c.history ++ newTurns, c.audit_result⟩
      { s with chats := collSet s.chats chat_id doc }

/-- Model of Python `str.upper()` (ASCII case mapping, which is all
the verdict strings use). -/
def strToUpper (s : String) : String := String.mk (s.data.map Char.toUpper)

/-- Python truthiness of the `audit_result` dict (`not audit_result`
is true exactly when the dict is empty). -/
def auditTruthy (ar : AuditResult) : Bool :=
  ar.verdict.isSome || ar.reason.isSome || ar.priority.isSome || ar.timestamp.isSome

/-- Function `should_trigger_audit` from `src/core/db.py`. -/
def should_trigger_audit (s : Store) (chat_id : String) : Bool :=
  match collFind s.chats chat_id with
  | none => true
  | some chat =>
    match chat.audit_result with
    | none => true
    | some ar =>
      if ¬ auditTruthy ar then true
      else
        let verdict := strToUpper (ar.verdict.getD "")
        if verdict = "PASS" then true
        else if verdict = "FAIL" then false
        else true

/-- Spec-side comparison predicate: the chat has a stored, non-empty
`audit_result` whose upper-cased verdict is `"FAIL"`. -/
def audit_fail_recorded (s : Store) (chat_id : String) : Bool :=
  match collFind s.chats chat_id with
  | none => false
  | some chat =>
    match chat.audit_result with
    | none => false
    | some ar => auditTruthy ar && strToUpper (ar.verdict.getD "") = "FAIL"

/-! ## `src/core/llm.py` (cost computation of `generate_response`) -/

/-- Python `round` to the nearest integer, ties to even, on exact
rationals (the binary-float representation error of the Python runtime
is abstracted away; all values used in theorems below are far from ties
or exactly representable). -/
def roundHalfEven (q : ℚ) : ℤ :=
  let f := ⌊q⌋
  let r := q - f
  if r < 1/2 then f
  else if 1/2 < r then f + 1
  else if f % 2 = 0 then f else f + 1

/-- Python `round(x, 6)`. -/
def pyRound6 (q : ℚ) : ℚ := (roundHalfEven (q * 1000000) : ℚ) / 1000000

/-- Constant `INPUT_PRICE_PER_1M = 0.30` ($ per 1M input tokens). -/
def INPUT_PRICE_PER_1M : ℚ := 3/10

/-- Constant `OUTPUT_PRICE_PER_1M = 2.50` ($ per 1M output tokens). -/
def OUTPUT_PRICE_PER_1M : ℚ := 5/2

/-- Value `metrics["estimated_cost"]` as computed by `generate_response`:
`round(in/1e6*0.30 + out/1e6*2.50, 6)`.  The `model_name` argument of
`generate_response` is taken but the prices are fixed constants. -/
def generate_response_cost (input_tokens output_tokens : Nat)
    (model_name : String) : ℚ :=
  let _ := model_name
  pyRound6 ((input_tokens : ℚ) / 1000000 * INPUT_PRICE_PER_1M
    + (output_tokens : ℚ) / 1000000 * OUTPUT_PRICE_PER_1M)

/-- Fallback token estimate for the prompt when the API reports no
usage metadata: `(len(system_prompt) + len(user_input)) // 4`. -/
def fallback_input_tokens (system_prompt user_input : String) : Nat :=
  (system_prompt.length + user_input.length) / 4

/-- Fallback token estimate for the response text: `len(text) // 4`. -/
def fallback_output_tokens (text : String) : Nat :=
  text.length / 4

/-! ## Job payloads (pub/sub message dicts) -/

/-- Audit job payload published by the gateway. -/
structure AuditPayload where
  chat_id : String
  agent_id : String
  agent_version : String
  user_input : String
  bot_response : String
  prompt_used : String
deriving DecidableEq, Repr

/-- Refine job payload.  The two producers (auditor, evaluator) write
different key sets, so every key not written by both is `Option`;
`none` models an absent key. -/
structure RefinePayload where
  chat_id : String
  agent_id : String
  failure_reason : String
  refinement_depth : Option Nat
  original_input : Option String
  bad_response : Option String
  full_history : Option (List Turn)
  priority : Option String
deriving DecidableEq, Repr

/-- Evaluate job payload published by the refiner. -/
structure EvaluatePayload where
  target_agent_id : String
  original_agent_id : String
  chat_id : String
  trigger_reason : String
  refinement_depth : Nat
  version : Nat
deriving DecidableEq, Repr

/-! ## `src/services/gateway_service.py` -/

/-- Function `build_system_prompt`. -/
def build_system_prompt (agent_config : AgentDoc) : String :=
  let prompt_data := agent_config.prompt
  let resources := agent_config.resources
  let persona := prompt_data.persona
  let objectives :=
    String.intercalate "\n" (prompt_data.objectives.map (fun obj => "- " ++ obj))
  let guidelines :=
    String.intercalate "\n"
      (prompt_data.operational_guidelines.map (fun g => "- " ++ g))
  let style_guide :=
    String.intercalate "\n" (prompt_data.style_guide.map (fun st => "- " ++ st))
  let knowledge_base := resources.knowledge_base_text
  let policies := resources.policy_text
  let base :=
    "You are a " ++ persona.role ++ " with a " ++ persona.tone ++ " tone.\n\n"
      ++ "OBJECTIVES:\n" ++ objectives ++ "\n\nOPERATIONAL GUIDELINES:\n"
      ++ guidelines ++ "\n\nSTYLE GUIDE:\n" ++ style_guide ++ "\n"
  let withKb :=
    if knowledge_base ≠ "" then
      base ++ "\n\nKNOWLEDGE BASE:\n" ++ knowledge_base ++ "\n"
    else base
  if policies ≠ "" then
    withKb ++ "\n\nLEGAL POLICIES & CONSTRAINTS:\n" ++ policies
      ++ "\nYou MUST follow these policies strictly. Do not deviate.\n"
  else withKb

/-- Outcome of one `/chat` request: the new store state and the audit
payload handed to the background publisher, when one was enqueued. -/
structure GatewayOutcome where
  newStore : Store
  auditJob : Option AuditPayload
deriving DecidableEq

/-- Function `chat_endpoint`: the store-and-queue effects of one gateway turn.
The generated reply text and its metrics are external inputs.  `none`
models the 500 response on a resolution failure (generation failure
is part of the same `try` and also yields `none` with no store write,
but the generated text is a parameter here, so resolution is the only
failure modelled). -/
def chat_endpoint (s : Store) (chat_id agent_id user_message : String)
    (bot_text : String) (metrics : Metrics) (now : Nat) : Option GatewayOutcome :=
  match get_current_agent_config s agent_id with
  | none => none
  | some agent_config =>
    let raw_version := agent_config.version
    let version := "v" ++ toString raw_version
    let s' := save_chat_log s chat_id agent_id version user_message bot_text metrics now
    if should_trigger_audit s' chat_id then
      let audit_payload : AuditPayload :=
        ⟨chat_id, agent_id, version, user_message, bot_text,
          build_system_prompt agent_config⟩
      some ⟨s', some audit_payload⟩
    else
      some ⟨s', none⟩

/-! ## `src/services/auditor_worker.py` -/

/-- The parsed judgment dict; every key may be missing. -/
structure AuditJson where
  verdict : Option String
  reason : Option String
  priority : Option String
deriving DecidableEq, Repr

/-- Result of cleaning and `json.loads`-ing the judge LLM text:
the cleaned text was empty, failed to parse, or parsed to a dict. -/
inductive JudgeText where
  | emptyText : JudgeText
  | parseError : JudgeText
  | parsed (j : AuditJson) : JudgeText
deriving DecidableEq, Repr

/-- Outcome of one auditor job. -/
structure AuditOutcome where
  newStore : Store
  refines : List RefinePayload
deriving DecidableEq

/-- Function `evaluate_interaction`: fetch chat + active config, judge the
exchange (LLM parse outcome is the `judge` parameter), overwrite
`audit_result`, and publish a refine job on a FAIL verdict. -/
def evaluate_interaction (s : Store) (p : AuditPayload) (judge : JudgeText)
    (now : Nat) : AuditOutcome :=
  match collFind s.chats p.chat_id with
  | none => ⟨s, []⟩
  | some chat =>
    match get_current_agent_config s p.agent_id with
    | none => ⟨s, []⟩
    | some _agent_config =>
      let history := chat.history
      let audit_result : AuditJson :=
        match judge with
        | .emptyText =>
            ⟨some "FAIL", some "LLM evaluation failed - empty response", some "HIGH"⟩
        | .parseError =>
            ⟨some "FAIL", some "LLM evaluation failed - invalid JSON output.",
              some "HIGH"⟩
        | .parsed j => j
      let verdict := audit_result.verdict.getD "FAIL"
      let reason := audit_result.reason.getD "Unknown error"
      let priority := audit_result.priority.getD "LOW"
      let storedAudit : AuditResult := ⟨some verdict, some reason, some priority, some now⟩
      let newChat : ChatDoc := { chat with audit_result := some storedAudit }
      let s' : Store := { s with chats := collSet s.chats p.chat_id newChat }
      if verdict = "FAIL" then
        let refine_payload : RefinePayload :=
          { chat_id := p.chat_id
            agent_id := p.agent_id
            failure_reason := reason
            refinement_depth := none
            original_input := some p.user_input
            bad_response := some p.bot_response
            full_history := some history
            priority := some priority }
        ⟨s', [refine_payload]⟩
      else ⟨s', []⟩

/-! ## `src/services/refiner_worker.py` -/

/-- The parsed LLM rewrite of the mutable configuration: a dict that,
per the refine prompt ("Keep the JSON structure exactly the same"),
carries the four mutable keys; `none` models a key the LLM's JSON left
out (dict `update` then keeps the old value). -/
structure MutableConfig where
  persona : Option Persona
  style_guide : Option (List String)
  objectives : Option (List String)
  operational_guidelines : Option (List String)
deriving DecidableEq, Repr

/-- Python `new_agent_data["prompt"].update(new_mutable_config)`. -/
def updatePrompt (pr : PromptSpec) (m : MutableConfig) : PromptSpec :=
  { persona := m.persona.getD pr.persona
    style_guide := m.style_guide.getD pr.style_guide
    objectives := m.objectives.getD pr.objectives
    operational_guidelines := m.operational_guidelines.getD pr.operational_guidelines }

/-- Characters before the first occurrence of the separator "_v"
(helper for `baseId`). -/
def baseIdAux : List Char → List Char
  | [] => []
  | c :: rest =>
      if c = '_' ∧ rest.head? = some 'v' then []
      else c :: baseIdAux rest

/-- Translation of `agent_id.split("_v")[0]`: the prefix of the id up
to the first occurrence of "_v" (the whole id when "_v" never occurs),
exactly what Python's `split` puts in index 0. -/
def baseId (agent_id : String) : String :=
  String.mk (baseIdAux agent_id.data)

/-- Outcome of one refiner job: new store state, published evaluate
jobs, and whether the terminal "loop detected" alert was raised. -/
structure RefinerOutcome where
  newStore : Store
  published : List EvaluatePayload
  loopAlert : Bool
deriving DecidableEq

/-- Function `refine_agent`: depth guard, fetch parent config, LLM rewrite of
the mutable fields (`llm` is the parse result of the LLM text), save
the candidate document, publish the evaluate job. -/
def refine_agent (s : Store) (p : RefinePayload) (llm : Option MutableConfig)
    (now : Nat) : RefinerOutcome :=
  let refinement_depth := p.refinement_depth.getD 0
  if refinement_depth ≥ 2 then ⟨s, [], true⟩
  else
    match collFind s.agents p.agent_id with
    | none => ⟨s, [], false⟩
    | some agent_data =>
      match llm with
      | none => ⟨s, [], false⟩
      | some new_mutable_config =>
        let current_version := agent_data.version
        let new_version := current_version + 1
        let base_id := baseId p.agent_id
        let new_agent_id := base_id ++ "_v" ++ toString new_version
        let newMeta : AgentMetadata :=
          { agent_data.metadata with
              version := new_version
              agentid := new_agent_id
              upgrade_reason := "Refinement fix for: " ++ p.failure_reason
              deployment_state := "TEST_CANDIDATE" }
        let new_agent_data : AgentDoc :=
          { agent_data with
              version := new_version
              agent_id := new_agent_id
              created_at := now
              metadata := newMeta
              prompt := updatePrompt agent_data.prompt new_mutable_config }
        let s' : Store := { s with agents := collSet s.agents new_agent_id new_agent_data }
        let evaluator_payload : EvaluatePayload :=
          { target_agent_id := new_agent_id
            original_agent_id := base_id
            chat_id := p.chat_id
            trigger_reason := p.failure_reason
            refinement_depth := refinement_depth
            version := new_version }
        ⟨s', [evaluator_payload], false⟩

/-- All versions of family `fam` present in the `agents` collection
(documents whose id has base `fam`). -/
def family_versions (s : Store) (fam : String) : List Nat :=
  (s.agents.filter (fun kv => baseId kv.1 = fam)).map (fun kv => kv.2.version)

/-! ## `src/services/evaluator_worker.py` -/

/-- A parsed judge verdict dict (`perf_json` / `comp_json`). -/
structure JudgeJson where
  verdict : Option String
  reason : Option String
deriving DecidableEq, Repr

/-- Python f-string rendering of `dict.get("reason")`: `None` prints
as the string "None". -/
def optStr (o : Option String) : String :=
  match o with
  | some s => s
  | none => "None"

/-- Outcome of one evaluator job: new store state, published refine
jobs, and whether the terminal give-up alert was raised. -/
structure EvalOutcome where
  newStore : Store
  refines : List RefinePayload
  terminalAlert : Bool
deriving DecidableEq

/-- Function `handle_failure`: retry through the refiner when `depth < 2`
(publishing `depth + 1`), terminal alert otherwise. -/
def handle_failure (chat_id agent_id : String) (depth : Nat)
    (evaluator_reason audit_reason : String) : List RefinePayload × Bool :=
  let _ := audit_reason
  if depth < 2 then
    let retry_payload : RefinePayload :=
      { chat_id := chat_id
        agent_id := agent_id
        failure_reason := evaluator_reason
        refinement_depth := some (depth + 1)
        original_input := none
        bad_response := none
        full_history := none
        priority := none }
    ([retry_payload], false)
  else ([], true)

/-- The last value taken by `last_user_input` in the history loop:
the content of the last `user` turn, `""` if there is none. -/
def last_user_input (history : List Turn) : String :=
  history.foldl (fun acc t => if t.role = "user" then t.content else acc) ""

/-- The pointer update of the promotion step (the first of the two
promotion writes). -/
def promote_pointer (s : Store) (original_agent_id candidate_agent_id : String)
    (ptr : PointerDoc) (candidate_version : Nat) (failure_reason : String)
    (now : Nat) : Store :=
  let newPtr : PointerDoc :=
    { ptr with
        active_agent_doc_ref := candidate_agent_id
        current_version := candidate_version
        last_updated := now
        reason := "Auto-fixed: " ++ failure_reason }
  { s with pointers := collSet s.pointers original_agent_id newPtr }

/-- The candidate-flag update of the promotion step (the second write):
`metadata.deployment_state = "ACTIVE"`. -/
def mark_active (s : Store) (candidate_agent_id : String) : Store :=
  match collFind s.agents candidate_agent_id with
  | none => s
  | some cand =>
    let newMeta : AgentMetadata := { cand.metadata with deployment_state := "ACTIVE" }
    let newCand : AgentDoc := { cand with metadata := newMeta }
    { s with agents := collSet s.agents candidate_agent_id newCand }

/-- Function `run_evaluation`: fetch chat + candidate, replay (the replayed
text is external), two judge gates (`perf` / `comp` are the parse
results of the judge LLM texts; `none` models the `json.loads`
exception, which the blanket `except` turns into a log-only abort),
then either `handle_failure` or the two-step promotion. -/
def run_evaluation (s : Store) (p : EvaluatePayload) (replay_response : String)
    (perf : Option JudgeJson) (comp : Option JudgeJson) (now : Nat) : EvalOutcome :=
  let _ := replay_response
  match collFind s.chats p.chat_id with
  | none => ⟨s, [], false⟩
  | some chat =>
    let original_audit_reason :=
      match chat.audit_result with
      | none => "Unknown Audit Failure"
      | some ar => ar.reason.getD "Unknown Audit Failure"
    if last_user_input chat.history = "" then ⟨s, [], false⟩
    else
      match collFind s.agents p.target_agent_id with
      | none => ⟨s, [], false⟩
      | some candidate_data =>
        match perf with
        | none => ⟨s, [], false⟩
        | some perf_json =>
          if perf_json.verdict = some "FAIL" then
            let r := handle_failure p.chat_id p.target_agent_id p.refinement_depth
              ("Performance Check Failed: " ++ optStr perf_json.reason)
              original_audit_reason
            ⟨s, r.1, r.2⟩
          else
            match comp with
            | none => ⟨s, [], false⟩
            | some comp_json =>
              if comp_json.verdict = some "FAIL" then
                let r := handle_failure p.chat_id p.target_agent_id p.refinement_depth
                  ("Compliance Check Failed: " ++ optStr comp_json.reason)
                  original_audit_reason
                ⟨s, r.1, r.2⟩
              else
                match collFind s.pointers p.original_agent_id with
                | none => ⟨s, [], false⟩
                | some ptr =>
                  let s1 := promote_pointer s p.original_agent_id p.target_agent_id
                    ptr candidate_data.version p.trigger_reason now
                  let s2 := mark_active s1 p.target_agent_id
                  ⟨s2, [], false⟩

/-! ## Concrete fixtures (used by witnesses and counterexamples) -/

/-- A seeded persona. -/
def samplePersona : Persona := ⟨"Senior Sales Concierge", "High-Energy, Consultative"⟩

/-- A seeded prompt spec. -/
def samplePrompt : PromptSpec :=
  ⟨samplePersona, ["Use Markdown."], ["Help users find and purchase cars quickly."],
    ["PROTOCOL 1: Always be polite."]⟩

/-- Seeded resources. -/
def sampleResources : Resources :=
  ⟨"INVENTORY: Model Y (5 Stock, Available Now).",
    "LEGAL: Deposits are 100% refundable."⟩

/-- Seeded rule sets. -/
def sampleRules : UpgradeConfig :=
  ⟨["FAIL if the agent mentions a vehicle model that is NOT listed."],
    ["Did the agent follow the protocol?"]⟩

/-- Seeded model settings. -/
def sampleModelConfig : ModelConfig := ⟨"gemini-2.5-flash", 1/5, 800⟩

/-- Seeded economics block. -/
def sampleEconomics : Economics := ⟨0, 0, 420, "0.5$"⟩

/-- An agent document shaped like the seeded one. -/
def mkAgentDoc (id : String) (v : Nat) (state : String) : AgentDoc :=
  ⟨id, v, 0,
    ⟨"Car Auto Concierge", "A car salesman chatbot.", "X", id, v, state,
      "Initial deployment"⟩,
    sampleModelConfig, sampleEconomics, samplePrompt, sampleResources, sampleRules⟩

/-- Example generation metrics. -/
def sampleMetrics : Metrics := ⟨100, 10, 20, 30, 1/20000, "gemini-2.5-flash"⟩

/-- A two-turn chat history containing a user turn. -/
def sampleHistory : List Turn :=
  [⟨"user", "Tell me about Model Y", none, 1⟩,
    ⟨"model", "Model Y is in stock!", some sampleMetrics, 2⟩]

/-- A chat document with no audit result yet. -/
def chatNoAudit : ChatDoc := ⟨⟨"fam", "v1", 2⟩, sampleHistory, none⟩

/-- A stored FAIL audit result. -/
def failAudit : AuditResult := ⟨some "FAIL", some "Missed email ask", some "HIGH", some 3⟩

/-- A chat document whose latest audit failed. -/
def chatFailAudit : ChatDoc := ⟨⟨"fam", "v1", 2⟩, sampleHistory, some failAudit⟩

/-- The seeded version pointer for family "fam". -/
def samplePointer : PointerDoc := ⟨"fam", 1, "Initial Seed", "fam", 0⟩

/-- Store: seeded family, one un-audited chat. -/
def storeSeed : Store :=
  ⟨[("fam", mkAgentDoc "fam" 1 "ACTIVE")], [("fam", samplePointer)],
    [("chat1", chatNoAudit)]⟩

/-- Store: seeded family, one chat with a FAIL audit recorded. -/
def storeFailChat : Store :=
  ⟨[("fam", mkAgentDoc "fam" 1 "ACTIVE")], [("fam", samplePointer)],
    [("chat1", chatFailAudit)]⟩

/-- Store: family "fam" already has versions 1, 2 and 3 (a prior
refinement chain), pointer still at version 1. -/
def storeThreeVersions : Store :=
  ⟨[("fam", mkAgentDoc "fam" 1 "ACTIVE"),
      ("fam_v2", mkAgentDoc "fam_v2" 2 "TEST_CANDIDATE"),
      ("fam_v3", mkAgentDoc "fam_v3" 3 "TEST_CANDIDATE")],
    [("fam", samplePointer)], [("chat1", chatFailAudit)]⟩

/-- Store: active version 1 plus a candidate version 2 under evaluation. -/
def storeCandidate : Store :=
  ⟨[("fam", mkAgentDoc "fam" 1 "ACTIVE"),
      ("fam_v2", mkAgentDoc "fam_v2" 2 "TEST_CANDIDATE")],
    [("fam", samplePointer)], [("chat1", chatFailAudit)]⟩

/-- The refine payload as the auditor publishes it: no
`refinement_depth` key. -/
def auditorRefinePayload : RefinePayload :=
  ⟨"chat1", "fam", "Missed email ask", none, some "Tell me about Model Y",
    some "Model Y is in stock!", some sampleHistory, some "HIGH"⟩

/-- A refine payload at the depth bound. -/
def depth2RefinePayload : RefinePayload :=
  ⟨"chat1", "fam_v3", "still failing", some 2, none, none, none, none⟩

/-- An LLM rewrite touching only the operational guidelines. -/
def sampleMutable : MutableConfig :=
  ⟨none, none, none, some ["PROTOCOL 1: Always be polite.", "Always ask for email."]⟩

/-- The evaluate payload the refiner publishes for candidate v2. -/
def evalPayloadC6 : EvaluatePayload :=
  ⟨"fam_v2", "fam", "chat1", "Missed email ask", 0, 2⟩

/-- An audit payload for the seeded chat. -/
def sampleAuditPayload : AuditPayload :=
  ⟨"chat1", "fam", "v1", "Tell me about Model Y", "Model Y is in stock!",
    "system prompt text"⟩

/-- A judge verdict that passes a gate. -/
def passJudge : JudgeJson := ⟨some "PASS", some "looks good"⟩

/-! ## Theorems -/

theorem collFind_collSet_self {α : Type} (c : Coll α) (k : String) (v : α) :
    collFind (collSet c k v) k = some v := by
  induction c with
  | nil => simp [collSet, collFind]
  | cons h t ih =>
    obtain ⟨k', v'⟩ := h
    by_cases hk : k' = k
    · simp [collSet, collFind, hk]
    · simp [collSet, collFind, hk, ih]

theorem collFind_collSet_other {α : Type} (c : Coll α) (k k' : String) (v : α)
    (h : k' ≠ k) : collFind (collSet c k v) k' = collFind c k' := by
  have h' : ¬ (k = k') := fun he => h he.symm
  induction c with
  | nil => simp [collSet, collFind, h']
  | cons hd t ih =>
    obtain ⟨k0, v0⟩ := hd
    by_cases hk : k0 = k
    · subst hk
      simp [collSet, collFind, h']
    · simp [collSet, collFind, hk, ih]

/-- C1: the Evaluator's `handle_failure` publishes a retry RefineJob only
below depth 2 and always with depth + 1 (hence never above 2); at depth 2
or more it publishes nothing and raises only the terminal alert; and the
Refiner aborts any job at depth 2 or more with the "loop detected" alert,
writing and publishing nothing. -/
theorem c1_depth_bound :
    (∀ (chat_id agent_id : String) (depth : Nat) (er ar : String),
      ((handle_failure chat_id agent_id depth er ar).1 ≠ [] → depth < 2) ∧
      (∀ j ∈ (handle_failure chat_id agent_id depth er ar).1,
        j.refinement_depth = some (depth + 1) ∧ depth + 1 ≤ 2) ∧
      (2 ≤ depth → handle_failure chat_id agent_id depth er ar = ([], true))) ∧
    (∀ (s : Store) (p : RefinePayload) (llm : Option MutableConfig) (now : Nat),
      2 ≤ p.refinement_depth.getD 0 →
        refine_agent s p llm now = ⟨s, [], true⟩) := by
  constructor
  · intro chat_id agent_id depth er ar
    by_cases h : depth < 2
    · refine ⟨fun _ => h, ?_, ?_⟩
      · intro j hj
        simp [handle_failure, h] at hj
        subst hj
        exact ⟨rfl, by omega⟩
      · intro h2
        omega
    · refine ⟨fun hne => ?_, ?_, fun _ => ?_⟩
      · exact absurd (by simp [handle_failure, h]) hne
      · intro j hj
        simp [handle_failure, h] at hj
      · simp [handle_failure, h]
  · intro s p llm now h
    unfold refine_agent
    rw [if_pos h]

/-- C1 witness: at depth 2 the failure handler only alerts, and the
refiner aborts a depth-2 job without touching the store. -/
theorem c1_depth_bound_witness :
    handle_failure "chat1" "fam_v3" 2 "er" "ar" = ([], true) ∧
    refine_agent storeThreeVersions depth2RefinePayload none 0 =
      ⟨storeThreeVersions, [], true⟩ :=
  ⟨(c1_depth_bound.1 "chat1" "fam_v3" 2 "er" "ar").2.2 (by decide),
   c1_depth_bound.2 storeThreeVersions depth2RefinePayload none 0 (by decide)⟩

/-- C2: every candidate the Refiner writes keeps the parent's rule sets
(`upgrade_config`), resources and model settings (`config`) unchanged;
its prompt is the parent's prompt with only the four mutable fields
replaced by whatever the LLM rewrite supplied. -/
theorem c2_immutable_fields (s : Store) (p : RefinePayload) (m : MutableConfig)
    (now : Nat) (parent : AgentDoc)
    (hd : p.refinement_depth.getD 0 < 2)
    (hparent : collFind s.agents p.agent_id = some parent) :
    ∃ newDoc : AgentDoc,
      collFind (refine_agent s p (some m) now).newStore.agents
        (baseId p.agent_id ++ "_v" ++ toString (parent.version + 1)) = some newDoc ∧
      newDoc.upgrade_config = parent.upgrade_config ∧
      newDoc.resources = parent.resources ∧
      newDoc.config = parent.config ∧
      newDoc.economics = parent.economics ∧
      newDoc.prompt = updatePrompt parent.prompt m := by
  unfold refine_agent
  rw [if_neg (by omega), hparent]
  exact ⟨_, collFind_collSet_self _ _ _, rfl, rfl, rfl, rfl, rfl⟩

/-- C2 witness: a concrete refinement of the seeded config keeps rules,
resources, model settings and economics identical. -/
theorem c2_immutable_fields_witness :
    ∃ newDoc : AgentDoc,
      collFind (refine_agent storeSeed auditorRefinePayload (some sampleMutable) 7).newStore.agents
        (baseId auditorRefinePayload.agent_id ++ "_v"
          ++ toString ((mkAgentDoc "fam" 1 "ACTIVE").version + 1)) = some newDoc ∧
      newDoc.upgrade_config = (mkAgentDoc "fam" 1 "ACTIVE").upgrade_config ∧
      newDoc.resources = (mkAgentDoc "fam" 1 "ACTIVE").resources ∧
      newDoc.config = (mkAgentDoc "fam" 1 "ACTIVE").config ∧
      newDoc.economics = (mkAgentDoc "fam" 1 "ACTIVE").economics ∧
      newDoc.prompt = updatePrompt (mkAgentDoc "fam" 1 "ACTIVE").prompt sampleMutable :=
  c2_immutable_fields storeSeed auditorRefinePayload sampleMutable 7
    (mkAgentDoc "fam" 1 "ACTIVE") (by decide) rfl

theorem should_trigger_audit_save (s : Store) (cid a v u b : String)
    (m : Metrics) (n : Nat) :
    should_trigger_audit (save_chat_log s cid a v u b m n) cid
      = should_trigger_audit s cid := by
  unfold save_chat_log
  cases hc : collFind s.chats cid with
  | none =>
    simp only [hc]
    unfold should_trigger_audit
    rw [collFind_collSet_self, hc]
  | some c =>
    simp only [hc]
    unfold should_trigger_audit
    rw [collFind_collSet_self, hc]

theorem should_trigger_audit_eq_not_fail (s : Store) (cid : String) :
    should_trigger_audit s cid = !(audit_fail_recorded s cid) := by
  unfold should_trigger_audit audit_fail_recorded
  cases hc : collFind s.chats cid with
  | none => rfl
  | some chat =>
    cases har : chat.audit_result with
    | none => simp [har]
    | some ar =>
      by_cases ht : auditTruthy ar
      · by_cases hp : strToUpper (ar.verdict.getD "") = "PASS"
        · have hnf : ¬ strToUpper (ar.verdict.getD "") = "FAIL" := by
            rw [hp]; decide
          simp [har, ht, hp, hnf]
        · by_cases hf : strToUpper (ar.verdict.getD "") = "FAIL"
          · simp [har, ht, hp, hf]
          · simp [har, ht, hp, hf]
      · simp [har, ht]

/-- C3: when config resolution succeeds, a gateway turn enqueues an
AuditJob exactly when `should_trigger_audit` says so, and
`should_trigger_audit` is false exactly when a (non-empty) stored
`audit_result` with upper-cased verdict "FAIL" exists for the chat. -/
theorem c3_audit_suppression (s : Store)
    (chat_id agent_id user_message bot_text : String) (metrics : Metrics)
    (now : Nat) (cfg : AgentDoc)
    (hres : get_current_agent_config s agent_id = some cfg) :
    ∃ out : GatewayOutcome,
      chat_endpoint s chat_id agent_id user_message bot_text metrics now = some out ∧
      out.auditJob.isSome = should_trigger_audit s chat_id ∧
      (should_trigger_audit s chat_id = false ↔ audit_fail_recorded s chat_id = true) := by
  have hsave := should_trigger_audit_save s chat_id agent_id
    ("v" ++ toString cfg.version) user_message bot_text metrics now
  have hiff : should_trigger_audit s chat_id = false
      ↔ audit_fail_recorded s chat_id = true := by
    rw [should_trigger_audit_eq_not_fail]
    cases audit_fail_recorded s chat_id <;> simp
  unfold chat_endpoint
  rw [hres]
  dsimp only
  by_cases ht : should_trigger_audit
      (save_chat_log s chat_id agent_id ("v" ++ toString cfg.version)
        user_message bot_text metrics now) chat_id
  · rw [if_pos ht]
    exact ⟨_, rfl, by rw [← hsave, ht]; rfl, hiff⟩
  · rw [if_neg ht]
    refine ⟨_, rfl, ?_, hiff⟩
    rw [← hsave]
    simp only [Bool.not_eq_true] at ht
    rw [ht]
    rfl

/-- C3 witness: on a chat whose stored audit verdict is FAIL, the turn
completes and the suppression equivalence holds at that store. -/
theorem c3_audit_suppression_witness :
    ∃ out : GatewayOutcome,
      chat_endpoint storeFailChat "chat1" "fam" "hello" "a reply" sampleMetrics 9
        = some out ∧
      out.auditJob.isSome = should_trigger_audit storeFailChat "chat1" ∧
      (should_trigger_audit storeFailChat "chat1" = false
        ↔ audit_fail_recorded storeFailChat "chat1" = true) :=
  c3_audit_suppression storeFailChat "chat1" "fam" "hello" "a reply" sampleMetrics 9
    (mkAgentDoc "fam" 1 "ACTIVE") rfl

/-- C4: when both evaluator gates do not return FAIL, the evaluator's
outcome store is exactly the pointer update followed by the candidate
flag update (in that order: in the intermediate store the pointer
already targets the candidate while its flag is untouched), and a fresh
`get_current_agent_config` read for the family afterwards returns the
candidate's configuration with `deployment_state = "ACTIVE"`. -/
theorem c4_promotion (s : Store) (p : EvaluatePayload) (replay : String)
    (pj cj : JudgeJson) (now : Nat) (chat : ChatDoc) (cand : AgentDoc)
    (ptr : PointerDoc)
    (hchat : collFind s.chats p.chat_id = some chat)
    (hlui : last_user_input chat.history ≠ "")
    (hcand : collFind s.agents p.target_agent_id = some cand)
    (hptr : collFind s.pointers p.original_agent_id = some ptr)
    (hpj : pj.verdict ≠ some "FAIL")
    (hcj : cj.verdict ≠ some "FAIL") :
    run_evaluation s p replay (some pj) (some cj) now =
      ⟨mark_active (promote_pointer s p.original_agent_id p.target_agent_id ptr
          cand.version p.trigger_reason now) p.target_agent_id, [], false⟩ ∧
    collFind (promote_pointer s p.original_agent_id p.target_agent_id ptr
        cand.version p.trigger_reason now).pointers p.original_agent_id =
      some { ptr with
        active_agent_doc_ref := p.target_agent_id
        current_version := cand.version
        last_updated := now
        reason := "Auto-fixed: " ++ p.trigger_reason } ∧
    collFind (promote_pointer s p.original_agent_id p.target_agent_id ptr
        cand.version p.trigger_reason now).agents p.target_agent_id = some cand ∧
    get_current_agent_config
        (mark_active (promote_pointer s p.original_agent_id p.target_agent_id ptr
          cand.version p.trigger_reason now) p.target_agent_id)
        p.original_agent_id =
      some { cand with metadata := { cand.metadata with deployment_state := "ACTIVE" } } := by
  have hptr1 : collFind (promote_pointer s p.original_agent_id p.target_agent_id ptr
      cand.version p.trigger_reason now).pointers p.original_agent_id =
      some { ptr with
        active_agent_doc_ref := p.target_agent_id
        current_version := cand.version
        last_updated := now
        reason := "Auto-fixed: " ++ p.trigger_reason } := by
    unfold promote_pointer
    exact collFind_collSet_self _ _ _
  have hcand1 : collFind (promote_pointer s p.original_agent_id p.target_agent_id ptr
      cand.version p.trigger_reason now).agents p.target_agent_id = some cand := by
    unfold promote_pointer
    exact hcand
  refine ⟨?_, hptr1, hcand1, ?_⟩
  · unfold run_evaluation
    rw [hchat]
    dsimp only
    rw [if_neg hlui, hcand]
    dsimp only
    rw [if_neg hpj, if_neg hcj, hptr]
  · unfold get_current_agent_config mark_active
    rw [hcand1]
    dsimp only
    rw [hptr1]
    dsimp only
    exact collFind_collSet_self _ _ _

/-- C4 witness: a concrete double-PASS evaluation promotes candidate
"fam_v2" and a fresh pointer read returns it, marked ACTIVE. -/
theorem c4_promotion_witness :
    run_evaluation storeCandidate evalPayloadC6 "a better reply" (some passJudge)
        (some passJudge) 9 =
      ⟨mark_active (promote_pointer storeCandidate evalPayloadC6.original_agent_id
          evalPayloadC6.target_agent_id samplePointer
          (mkAgentDoc "fam_v2" 2 "TEST_CANDIDATE").version
          evalPayloadC6.trigger_reason 9) evalPayloadC6.target_agent_id, [], false⟩ ∧
    collFind (promote_pointer storeCandidate evalPayloadC6.original_agent_id
        evalPayloadC6.target_agent_id samplePointer
        (mkAgentDoc "fam_v2" 2 "TEST_CANDIDATE").version
        evalPayloadC6.trigger_reason 9).pointers evalPayloadC6.original_agent_id =
      some { samplePointer with
        active_agent_doc_ref := evalPayloadC6.target_agent_id
        current_version := (mkAgentDoc "fam_v2" 2 "TEST_CANDIDATE").version
        last_updated := 9
        reason := "Auto-fixed: " ++ evalPayloadC6.trigger_reason } ∧
    collFind (promote_pointer storeCandidate evalPayloadC6.original_agent_id
        evalPayloadC6.target_agent_id samplePointer
        (mkAgentDoc "fam_v2" 2 "TEST_CANDIDATE").version
        evalPayloadC6.trigger_reason 9).agents evalPayloadC6.target_agent_id =
      some (mkAgentDoc "fam_v2" 2 "TEST_CANDIDATE") ∧
    get_current_agent_config
        (mark_active (promote_pointer storeCandidate evalPayloadC6.original_agent_id
          evalPayloadC6.target_agent_id samplePointer
          (mkAgentDoc "fam_v2" 2 "TEST_CANDIDATE").version
          evalPayloadC6.trigger_reason 9) evalPayloadC6.target_agent_id)
        evalPayloadC6.original_agent_id =
      some { mkAgentDoc "fam_v2" 2 "TEST_CANDIDATE" with
        metadata := { (mkAgentDoc "fam_v2" 2 "TEST_CANDIDATE").metadata with
          deployment_state := "ACTIVE" } } :=
  c4_promotion storeCandidate evalPayloadC6 "a better reply" passJudge passJudge 9
    chatFailAudit (mkAgentDoc "fam_v2" 2 "TEST_CANDIDATE") samplePointer
    rfl (by decide) rfl rfl (by decide) (by decide)

/-- C5 counterexample: family "fam" already holds versions 1, 2, 3; a
refine job for the still-active version-1 document (as the auditor
publishes after an audit failure of the active config) creates version
1 + 1 = 2, not max(1,2,3) + 1 = 4, and overwrites the existing
"fam_v2" document (its `created_at` changes from 0 to 7). -/
theorem c5_counterexample :
    family_versions storeThreeVersions "fam" = [1, 2, 3] ∧
    ((collFind (refine_agent storeThreeVersions auditorRefinePayload
        (some sampleMutable) 7).newStore.agents "fam_v2").map AgentDoc.version
      = some 2) ∧
    (2 : Nat) ≠ 3 + 1 ∧
    ((collFind storeThreeVersions.agents "fam_v2").map AgentDoc.created_at
      = some 0) ∧
    ((collFind (refine_agent storeThreeVersions auditorRefinePayload
        (some sampleMutable) 7).newStore.agents "fam_v2").map AgentDoc.created_at
      = some 7) := by
  refine ⟨rfl, rfl, by decide, rfl, rfl⟩

/-- C5 amended: a Refiner invocation that creates a candidate assigns
`version = parent.version + 1`, where the parent is the config document
the job's `agent_id` names (equal to max + 1 only when that parent is
the family's highest version); the candidate is stored under
`{base}_v{parent.version + 1}`, replacing any existing document with
that id, and all other documents are untouched. -/
theorem c5_version_allocation (s : Store) (p : RefinePayload) (m : MutableConfig)
    (now : Nat) (parent : AgentDoc)
    (hd : p.refinement_depth.getD 0 < 2)
    (hparent : collFind s.agents p.agent_id = some parent) :
    ∃ newDoc : AgentDoc,
      collFind (refine_agent s p (some m) now).newStore.agents
        (baseId p.agent_id ++ "_v" ++ toString (parent.version + 1)) = some newDoc ∧
      newDoc.version = parent.version + 1 ∧
      (∀ k, k ≠ baseId p.agent_id ++ "_v" ++ toString (parent.version + 1) →
        collFind (refine_agent s p (some m) now).newStore.agents k
          = collFind s.agents k) ∧
      (refine_agent s p (some m) now).published.map EvaluatePayload.version
        = [parent.version + 1] := by
  unfold refine_agent
  rw [if_neg (by omega), hparent]
  refine ⟨_, collFind_collSet_self _ _ _, rfl, ?_, rfl⟩
  intro k hk
  exact collFind_collSet_other _ _ _ _ hk

/-- C5 amended witness: refining the seeded version-1 config creates a
version-2 candidate at id "fam_v2" and leaves other documents alone. -/
theorem c5_version_allocation_witness :
    ∃ newDoc : AgentDoc,
      collFind (refine_agent storeSeed auditorRefinePayload (some sampleMutable) 7).newStore.agents
        (baseId auditorRefinePayload.agent_id ++ "_v"
          ++ toString ((mkAgentDoc "fam" 1 "ACTIVE").version + 1)) = some newDoc ∧
      newDoc.version = (mkAgentDoc "fam" 1 "ACTIVE").version + 1 ∧
      (∀ k, k ≠ baseId auditorRefinePayload.agent_id ++ "_v"
          ++ toString ((mkAgentDoc "fam" 1 "ACTIVE").version + 1) →
        collFind (refine_agent storeSeed auditorRefinePayload (some sampleMutable) 7).newStore.agents k
          = collFind storeSeed.agents k) ∧
      (refine_agent storeSeed auditorRefinePayload (some sampleMutable) 7).published.map
          EvaluatePayload.version = [(mkAgentDoc "fam" 1 "ACTIVE").version + 1] :=
  c5_version_allocation storeSeed auditorRefinePayload sampleMutable 7
    (mkAgentDoc "fam" 1 "ACTIVE") (by decide) rfl

/-- C6 counterexample: a concrete evaluator job whose performance-judge
output fails to parse ends with the store unchanged, no RefineJob
published and no terminal alert — it is not routed to `handle_failure`
(which at depth 0 would have published a RefineJob). -/
theorem c6_counterexample :
    run_evaluation storeCandidate evalPayloadC6 "a reply" none none 9 =
      ⟨storeCandidate, [], false⟩ ∧
    evalPayloadC6.refinement_depth = 0 ∧
    (handle_failure evalPayloadC6.chat_id evalPayloadC6.target_agent_id
        evalPayloadC6.refinement_depth "Performance Check Failed: None"
        "Missed email ask").1.length = 1 := by
  exact ⟨rfl, rfl, rfl⟩

/-- C6 amended: a parse failure of the LLM output makes the Refiner
abort with no candidate written and nothing published; the Evaluator,
on a parse failure of either judge output, aborts with the store
unchanged, nothing published and no alert (the exception is swallowed
by the blanket handler with only an error log), instead of being
routed to `handle_failure`. -/
theorem c6_parse_failure_abort :
    (∀ (s : Store) (p : RefinePayload) (now : Nat),
      (refine_agent s p none now).newStore = s ∧
      (refine_agent s p none now).published = []) ∧
    (∀ (s : Store) (p : EvaluatePayload) (replay : String)
        (comp : Option JudgeJson) (now : Nat),
      run_evaluation s p replay none comp now = ⟨s, [], false⟩) ∧
    (∀ (s : Store) (p : EvaluatePayload) (replay : String) (pj : JudgeJson)
        (now : Nat), pj.verdict ≠ some "FAIL" →
      run_evaluation s p replay (some pj) none now = ⟨s, [], false⟩) := by
  refine ⟨?_, ?_, ?_⟩
  · intro s p now
    unfold refine_agent
    by_cases h : p.refinement_depth.getD 0 ≥ 2
    · rw [if_pos h]
      exact ⟨rfl, rfl⟩
    · rw [if_neg h]
      cases collFind s.agents p.agent_id <;> exact ⟨rfl, rfl⟩
  · intro s p replay comp now
    unfold run_evaluation
    cases collFind s.chats p.chat_id with
    | none => rfl
    | some chat =>
      dsimp only
      by_cases h : last_user_input chat.history = ""
      · rw [if_pos h]
      · rw [if_neg h]
        cases collFind s.agents p.target_agent_id <;> rfl
  · intro s p replay pj now hpj
    unfold run_evaluation
    cases collFind s.chats p.chat_id with
    | none => rfl
    | some chat =>
      dsimp only
      by_cases h : last_user_input chat.history = ""
      · rw [if_pos h]
      · rw [if_neg h]
        cases collFind s.agents p.target_agent_id with
        | none => rfl
        | some cand =>
          dsimp only
          rw [if_neg hpj]

/-- C6 amended witness: a depth-0 refiner job whose rewrite fails to
parse leaves the store unchanged and publishes nothing, and a comp-gate
parse failure after a passing performance gate aborts the evaluator. -/
theorem c6_parse_failure_abort_witness :
    ((refine_agent storeSeed auditorRefinePayload none 7).newStore = storeSeed ∧
      (refine_agent storeSeed auditorRefinePayload none 7).published = []) ∧
    run_evaluation storeCandidate evalPayloadC6 "a reply" (some passJudge) none 9 =
      ⟨storeCandidate, [], false⟩ :=
  ⟨c6_parse_failure_abort.1 storeSeed auditorRefinePayload 7,
   c6_parse_failure_abort.2.2 storeCandidate evalPayloadC6 "a reply" passJudge 9
     (by decide)⟩

/-- C7 counterexample: the retry RefineJob published by the Evaluator's
`handle_failure` carries no `original_input`, `bad_response` or
`full_history` keys, and the RefineJob the Auditor publishes on a FAIL
verdict carries no `refinement_depth` key at all (rather than an
explicit 0). -/
theorem c7_counterexample :
    ((handle_failure "chat1" "fam_v2" 0 "Performance Check Failed: x" "orig").1.map
      (fun j => (j.original_input, j.bad_response, j.full_history))
        = [(none, none, none)]) ∧
    ((evaluate_interaction storeSeed sampleAuditPayload
        (JudgeText.parsed ⟨some "FAIL", some "Missed email ask", some "HIGH"⟩)
        3).refines.map (fun j => j.refinement_depth) = [(none : Option Nat)]) := by
  exact ⟨rfl, rfl⟩

/-- C7 amended: the Auditor's FAIL-verdict RefineJob carries chat_id,
agent_id, failure_reason, original_input, bad_response, full_history
and priority but omits refinement_depth (which the Refiner's
`payload.get("refinement_depth", 0)` then reads as 0); the Evaluator's
retry RefineJob carries only chat_id, agent_id, failure_reason and
refinement_depth = depth + 1. -/
theorem c7_refine_payload_fields :
    (∀ (chat_id agent_id : String) (depth : Nat) (er ar : String), depth < 2 →
      handle_failure chat_id agent_id depth er ar =
        ([⟨chat_id, agent_id, er, some (depth + 1), none, none, none, none⟩], false)) ∧
    (∀ (s : Store) (p : AuditPayload) (aj : AuditJson) (now : Nat)
        (chat : ChatDoc) (cfg : AgentDoc),
      collFind s.chats p.chat_id = some chat →
      get_current_agent_config s p.agent_id = some cfg →
      aj.verdict.getD "FAIL" = "FAIL" →
      (evaluate_interaction s p (JudgeText.parsed aj) now).refines =
        [⟨p.chat_id, p.agent_id, aj.reason.getD "Unknown error", none,
          some p.user_input, some p.bot_response, some chat.history,
          some (aj.priority.getD "LOW")⟩]) ∧
    (∀ (p : RefinePayload), p.refinement_depth = none →
      p.refinement_depth.getD 0 = 0) := by
  refine ⟨?_, ?_, ?_⟩
  · intro chat_id agent_id depth er ar h
    unfold handle_failure
    rw [if_pos h]
  · intro s p aj now chat cfg hchat hcfg hverdict
    unfold evaluate_interaction
    rw [hchat]
    dsimp only
    rw [hcfg]
    dsimp only
    rw [if_pos hverdict, hverdict]
  · intro p hp
    rw [hp]
    rfl

/-- C7 amended witness: concrete instances of the three parts. -/
theorem c7_refine_payload_fields_witness :
    handle_failure "chat1" "fam_v2" 1 "er" "ar" =
      ([⟨"chat1", "fam_v2", "er", some 2, none, none, none, none⟩], false) ∧
    (evaluate_interaction storeFailChat sampleAuditPayload
        (JudgeText.parsed ⟨some "FAIL", some "Hallucinated stock", some "MEDIUM"⟩)
        4).refines =
      [⟨sampleAuditPayload.chat_id, sampleAuditPayload.agent_id,
        (⟨some "FAIL", some "Hallucinated stock", some "MEDIUM"⟩ : AuditJson).reason.getD "Unknown error",
        none, some sampleAuditPayload.user_input, some sampleAuditPayload.bot_response,
        some chatFailAudit.history,
        some ((⟨some "FAIL", some "Hallucinated stock", some "MEDIUM"⟩ : AuditJson).priority.getD "LOW")⟩] ∧
    auditorRefinePayload.refinement_depth.getD 0 = 0 :=
  ⟨c7_refine_payload_fields.1 "chat1" "fam_v2" 1 "er" "ar" (by decide),
   c7_refine_payload_fields.2.1 storeFailChat sampleAuditPayload
     ⟨some "FAIL", some "Hallucinated stock", some "MEDIUM"⟩ 4 chatFailAudit
     (mkAgentDoc "fam" 1 "ACTIVE") rfl rfl (by decide),
   c7_refine_payload_fields.2.2 auditorRefinePayload rfl⟩

/-- C9: `should_trigger_audit` returns true when the chat document does
not exist, when its `audit_result` is absent (or empty), and when the
upper-cased verdict is any string other than "FAIL". -/
theorem c9_trigger_defaults (s : Store) (chat_id : String) :
    (collFind s.chats chat_id = none → should_trigger_audit s chat_id = true) ∧
    (∀ chat : ChatDoc, collFind s.chats chat_id = some chat →
      chat.audit_result = none → should_trigger_audit s chat_id = true) ∧
    (∀ (chat : ChatDoc) (ar : AuditResult), collFind s.chats chat_id = some chat →
      chat.audit_result = some ar → strToUpper (ar.verdict.getD "") ≠ "FAIL" →
      should_trigger_audit s chat_id = true) := by
  refine ⟨?_, ?_, ?_⟩
  · intro h
    unfold should_trigger_audit
    rw [h]
  · intro chat hc har
    unfold should_trigger_audit
    rw [hc]
    dsimp only
    rw [har]
  · intro chat ar hc har hnf
    unfold should_trigger_audit
    rw [hc]
    dsimp only
    rw [har]
    dsimp only
    by_cases ht : auditTruthy ar
    · by_cases hp : strToUpper (ar.verdict.getD "") = "PASS"
      · simp [ht, hp]
      · simp [ht, hp, hnf]
    · simp [ht]

/-- C9 witness: a present audit_result with a lower-case "pass" verdict
(upper-cased ≠ "FAIL") still triggers a new audit. -/
theorem c9_trigger_defaults_witness :
    should_trigger_audit storeSeed "chat1" = true ∧
    strToUpper ((⟨some "pass", some "ok", some "LOW", some 3⟩ : AuditResult).verdict.getD "")
        ≠ "FAIL" ∧
    should_trigger_audit
      ⟨storeSeed.agents, storeSeed.pointers,
        [("chat1", ⟨⟨"fam", "v1", 2⟩, sampleHistory,
          some ⟨some "pass", some "ok", some "LOW", some 3⟩⟩)]⟩ "chat1" = true :=
  ⟨(c9_trigger_defaults storeSeed "chat1").2.1 chatNoAudit rfl rfl,
   by decide,
   (c9_trigger_defaults
      ⟨storeSeed.agents, storeSeed.pointers,
        [("chat1", ⟨⟨"fam", "v1", 2⟩, sampleHistory,
          some ⟨some "pass", some "ok", some "LOW", some 3⟩⟩)]⟩ "chat1").2.2
     ⟨⟨"fam", "v1", 2⟩, sampleHistory, some ⟨some "pass", some "ok", some "LOW", some 3⟩⟩
     ⟨some "pass", some "ok", some "LOW", some 3⟩ rfl rfl (by decide)⟩

/-- C10: a parseable judgment object with missing keys is stored with
verdict defaulted to "FAIL", reason to "Unknown error" and priority to
"LOW" (and escalated with that LOW priority), unlike the synthetic
priority-HIGH FAIL stored for empty or unparseable judge output. -/
theorem c10_default_judgment_fields (s : Store) (p : AuditPayload) (now : Nat)
    (chat : ChatDoc) (cfg : AgentDoc)
    (hchat : collFind s.chats p.chat_id = some chat)
    (hcfg : get_current_agent_config s p.agent_id = some cfg) :
    (collFind (evaluate_interaction s p (JudgeText.parsed ⟨none, none, none⟩)
        now).newStore.chats p.chat_id =
      some { chat with audit_result := some ⟨some "FAIL", some "Unknown error", some "LOW", some now⟩ } ∧
      (evaluate_interaction s p (JudgeText.parsed ⟨none, none, none⟩) now).refines.map
        (fun j => j.priority) = [some "LOW"]) ∧
    (∀ jt : JudgeText, jt = JudgeText.emptyText ∨ jt = JudgeText.parseError →
      ∃ chat' : ChatDoc,
        collFind (evaluate_interaction s p jt now).newStore.chats p.chat_id
          = some chat' ∧
        ∃ ar : AuditResult, chat'.audit_result = some ar ∧
          ar.verdict = some "FAIL" ∧ ar.priority = some "HIGH") := by
  constructor
  · constructor
    · unfold evaluate_interaction
      rw [hchat]
      dsimp only
      rw [hcfg]
      dsimp only
      exact collFind_collSet_self _ _ _
    · unfold evaluate_interaction
      rw [hchat]
      dsimp only
      rw [hcfg]
      dsimp only
      rfl
  · intro jt hjt
    rcases hjt with h | h <;> subst h
    · have hfind : collFind (evaluate_interaction s p JudgeText.emptyText
          now).newStore.chats p.chat_id =
          some { chat with audit_result := some ⟨some "FAIL", some "LLM evaluation failed - empty response", some "HIGH", some now⟩ } := by
        unfold evaluate_interaction
        rw [hchat]
        dsimp only
        rw [hcfg]
        dsimp only
        exact collFind_collSet_self _ _ _
      exact ⟨_, hfind, _, rfl, rfl, rfl⟩
    · have hfind : collFind (evaluate_interaction s p JudgeText.parseError
          now).newStore.chats p.chat_id =
          some { chat with audit_result := some ⟨some "FAIL", some "LLM evaluation failed - invalid JSON output.", some "HIGH", some now⟩ } := by
        unfold evaluate_interaction
        rw [hchat]
        dsimp only
        rw [hcfg]
        dsimp only
        exact collFind_collSet_self _ _ _
      exact ⟨_, hfind, _, rfl, rfl, rfl⟩

/-- C10 witness: concrete instantiation on the seeded store. -/
theorem c10_default_judgment_fields_witness :
    (collFind (evaluate_interaction storeSeed sampleAuditPayload
        (JudgeText.parsed ⟨none, none, none⟩) 6).newStore.chats
        sampleAuditPayload.chat_id =
      some { chatNoAudit with audit_result := some ⟨some "FAIL", some "Unknown error", some "LOW", some 6⟩ } ∧
      (evaluate_interaction storeSeed sampleAuditPayload
        (JudgeText.parsed ⟨none, none, none⟩) 6).refines.map
        (fun j => j.priority) = [some "LOW"]) ∧
    (∀ jt : JudgeText, jt = JudgeText.emptyText ∨ jt = JudgeText.parseError →
      ∃ chat' : ChatDoc,
        collFind (evaluate_interaction storeSeed sampleAuditPayload jt 6).newStore.chats
          sampleAuditPayload.chat_id = some chat' ∧
        ∃ ar : AuditResult, chat'.audit_result = some ar ∧
          ar.verdict = some "FAIL" ∧ ar.priority = some "HIGH") :=
  c10_default_judgment_fields storeSeed sampleAuditPayload 6 chatNoAudit
    (mkAgentDoc "fam" 1 "ACTIVE") rfl rfl

theorem floor_le_roundHalfEven (q : ℚ) : ⌊q⌋ ≤ roundHalfEven q := by
  unfold roundHalfEven
  dsimp only
  split_ifs <;> omega

theorem roundHalfEven_nonneg (q : ℚ) (h : 0 ≤ q) : 0 ≤ roundHalfEven q :=
  le_trans (Int.le_floor.mpr (by exact_mod_cast h)) (floor_le_roundHalfEven q)

theorem one_le_roundHalfEven (q : ℚ) (h : 1 ≤ q) : 1 ≤ roundHalfEven q :=
  le_trans (Int.le_floor.mpr (by exact_mod_cast h)) (floor_le_roundHalfEven q)

/-- C8 amended: the generator's `estimated_cost` equals the pricing
formula rounded to 6 decimal places (`round(in/1e6*0.30 + out/1e6*2.50,
6)`); it is nonnegative, reproducible from the token counts alone (the
model id never enters, the prices are fixed constants), and strictly
positive once `3*in + 25*out ≥ 10` — but not for arbitrary non-empty
responses (see the counterexample). -/
theorem c8_cost (input_tokens output_tokens : Nat) (model_name other_model : String) :
    generate_response_cost input_tokens output_tokens model_name
      = pyRound6 (((3 * input_tokens + 25 * output_tokens : Nat) : ℚ) / 10000000) ∧
    0 ≤ generate_response_cost input_tokens output_tokens model_name ∧
    generate_response_cost input_tokens output_tokens model_name
      = generate_response_cost input_tokens output_tokens other_model ∧
    (10 ≤ 3 * input_tokens + 25 * output_tokens →
      0 < generate_response_cost input_tokens output_tokens model_name) := by
  have harg : ((input_tokens : ℚ) / 1000000 * INPUT_PRICE_PER_1M
      + (output_tokens : ℚ) / 1000000 * OUTPUT_PRICE_PER_1M)
      = ((3 * input_tokens + 25 * output_tokens : Nat) : ℚ) / 10000000 := by
    unfold INPUT_PRICE_PER_1M OUTPUT_PRICE_PER_1M
    push_cast
    ring
  have heq : generate_response_cost input_tokens output_tokens model_name
      = pyRound6 (((3 * input_tokens + 25 * output_tokens : Nat) : ℚ) / 10000000) := by
    unfold generate_response_cost
    rw [harg]
  have heq' : generate_response_cost input_tokens output_tokens other_model
      = pyRound6 (((3 * input_tokens + 25 * output_tokens : Nat) : ℚ) / 10000000) := by
    unfold generate_response_cost
    rw [harg]
  refine ⟨heq, ?_, heq.trans heq'.symm, ?_⟩
  · rw [heq]
    unfold pyRound6
    apply div_nonneg _ (by norm_num)
    exact_mod_cast roundHalfEven_nonneg _ (by positivity)
  · intro h10
    rw [heq]
    unfold pyRound6
    apply div_pos _ (by norm_num)
    have hm : (((3 * input_tokens + 25 * output_tokens : Nat) : ℚ) / 10000000)
        * 1000000 = ((3 * input_tokens + 25 * output_tokens : Nat) : ℚ) / 10 := by
      ring
    have h1 : (1 : ℚ) ≤ (((3 * input_tokens + 25 * output_tokens : Nat) : ℚ)
        / 10000000) * 1000000 := by
      rw [hm, le_div_iff₀ (by norm_num : (0:ℚ) < 10)]
      have hcast : (10 : ℚ) ≤ ((3 * input_tokens + 25 * output_tokens : Nat) : ℚ) := by
        exact_mod_cast h10
      linarith
    have := one_le_roundHalfEven _ h1
    have h0 : (1 : ℚ) ≤ ((roundHalfEven ((((3 * input_tokens + 25 * output_tokens : Nat) : ℚ)
        / 10000000) * 1000000) : ℤ) : ℚ) := by
      exact_mod_cast this
    linarith

/-- C8 amended witness: concrete token counts meeting the threshold
give a strictly positive cost. -/
theorem c8_cost_witness :
    10 ≤ 3 * 4 + 25 * 0 ∧ 0 < generate_response_cost 4 0 "gemini-2.5-flash" :=
  ⟨by decide,
   (c8_cost 4 0 "gemini-2.5-flash" "gemini-2.5-flash").2.2.2 (by decide)⟩

/-- C8 counterexample: with one input token and no output tokens the
returned cost is 0, not the formula value 3e-7 (the 6-decimal rounding
truncates it); and on the fallback token path a non-empty response
("Hi.", under 4 characters) yields 0 tokens and a cost of exactly 0,
refuting "estimated_cost > 0 for any non-empty response". -/
theorem c8_counterexample :
    generate_response_cost 1 0 "gemini-2.5-flash"
      ≠ (1 : ℚ) / 1000000 * INPUT_PRICE_PER_1M
        + (0 : ℚ) / 1000000 * OUTPUT_PRICE_PER_1M ∧
    ("Hi." : String) ≠ "" ∧
    fallback_input_tokens "sys" "Hi" = 1 ∧
    fallback_output_tokens "Hi." = 0 ∧
    generate_response_cost (fallback_input_tokens "sys" "Hi")
      (fallback_output_tokens "Hi.") "gemini-2.5-flash" = 0 := by
  have hfloor : ⌊(3:ℚ)/10⌋ = 0 := by
    rw [Int.floor_eq_iff]
    norm_num
  have hrhe : roundHalfEven ((3:ℚ)/10) = 0 := by
    unfold roundHalfEven
    dsimp only
    rw [hfloor]
    norm_num
  have hcost1 : generate_response_cost 1 0 "gemini-2.5-flash" = 0 := by
    unfold generate_response_cost pyRound6 INPUT_PRICE_PER_1M OUTPUT_PRICE_PER_1M
    have harg : (((1:ℕ) : ℚ) / 1000000 * (3/10)
        + ((0:ℕ) : ℚ) / 1000000 * (5/2)) * 1000000 = 3/10 := by
      push_cast
      ring
    rw [harg, hrhe]
    norm_num
  have hf1 : fallback_input_tokens "sys" "Hi" = 1 := by decide
  have hf2 : fallback_output_tokens "Hi." = 0 := by decide
  refine ⟨?_, by decide, hf1, hf2, ?_⟩
  · rw [hcost1]
    unfold INPUT_PRICE_PER_1M OUTPUT_PRICE_PER_1M
    norm_num
  · rw [hf1, hf2]
    exact hcost1
